import Mathlib

/-!
Shallow embedding of the image-sorter application (src/app.py) for
verification of its specification.  The embedding models:

* the triage state machine (`ImageSorterApp.thumbs_up` / `thumbs_down` /
  `skip_image` / `next_image` / `load_current_image` / `start_sorting`),
* session persistence (`save_session`, `check_for_resume`, `resume_session`,
  `reset_session`, `show_settings`),
* the file enumerator (`find_image_files` over `os.walk`),
* the target writer's collision loop (`copy_image_to_target`),
* the async image loader's mode normalization and temp-file naming
  (`ImageLoaderThread.run`), and the stale-result guards
  (`on_image_loaded` / `on_image_load_error`).

Machine integers are modelled as `Nat`/`Int`; Python's filesystem effects are
made explicit (the presence predicate for the target folder, the copy
outcome, the session file content as an `Option`).
-/

namespace ImageSorter

/-- The triage state held on `ImageSorterApp`: the fixed file list, the
cursor, the two counters, the currently displayed path, and whether the three
classification buttons are enabled (they are toggled together in the code). -/
structure TriageState where
  image_files : List String
  current_index : Nat
  processed_count : Nat
  kept_count : Nat
  current_image_path : Option String
  buttons_enabled : Bool
deriving Repr, DecidableEq

/-- `ImageSorterApp.sorting_complete` (app.py:579): disables the three
classification buttons (counters and index are left as they are). -/
def sorting_complete (s : TriageState) : TriageState :=
  { s with buttons_enabled := false }

/-- `ImageSorterApp.load_current_image` (app.py:492): if the index has run
past the list, finish the sort; otherwise the file at the current index
becomes the displayed path. -/
def load_current_image (s : TriageState) : TriageState :=
  if s.current_index ≥ s.image_files.length then
    sorting_complete s
  else
    { s with current_image_path := s.image_files[s.current_index]? }

/-- `ImageSorterApp.next_image` (app.py:551): increment `processed_count`,
advance the index, reload. -/
def next_image (s : TriageState) : TriageState :=
  load_current_image
    { s with processed_count := s.processed_count + 1,
             current_index := s.current_index + 1 }

/-- `ImageSorterApp.thumbs_up` (app.py:532), returning the successor state
together with whether a copy to the target folder was attempted.  `copyOk`
is the outcome the filesystem would give the attempted copy; the code
swallows the copy error inside `copy_image_to_target`, so the state update
does not depend on it. -/
def thumbs_up_full (copyOk : Bool) (s : TriageState) : TriageState × Bool :=
  if s.buttons_enabled = false then (s, false)
  else
    match s.current_image_path with
    | some _ => (next_image { s with kept_count := s.kept_count + 1 }, true)
    | none => (next_image s, false)

/-- The state part of `thumbs_up`. -/
def thumbs_up (copyOk : Bool) (s : TriageState) : TriageState :=
  (thumbs_up_full copyOk s).1

/-- `ImageSorterApp.thumbs_down` (app.py:540). -/
def thumbs_down (s : TriageState) : TriageState :=
  if s.buttons_enabled = false then s else next_image s

/-- `ImageSorterApp.skip_image` (app.py:545): advance without touching the
counters. -/
def skip_image (s : TriageState) : TriageState :=
  if s.buttons_enabled = false then s
  else load_current_image { s with current_index := s.current_index + 1 }

/-- A classification input.  `keep` carries the filesystem's answer to the
copy attempt. -/
inductive Action where
  | keep (copyOk : Bool)
  | discard
  | skip
deriving Repr, DecidableEq

/-- Dispatch one user action to the corresponding handler. -/
def step (a : Action) (s : TriageState) : TriageState :=
  match a with
  | .keep copyOk => thumbs_up copyOk s
  | .discard => thumbs_down s
  | .skip => skip_image s

/-- Run a sequence of actions from a state. -/
def run (acts : List Action) (s : TriageState) : TriageState :=
  match acts with
  | [] => s
  | a :: rest => run rest (step a s)

/-- `ImageSorterApp.start_sorting` (app.py:443), after enumeration: with an
empty list the code reports "no images found" and returns; otherwise the
counters are zeroed, the buttons enabled, and the first image loaded. -/
def start_sorting (files : List String) : Option TriageState :=
  if files.isEmpty then none
  else some (load_current_image
    { image_files := files, current_index := 0, processed_count := 0,
      kept_count := 0, current_image_path := none, buttons_enabled := true })

/-- Does an action contribute to `processed_count` (Keep or Discard)? -/
def countsAsProcessed (a : Action) : Bool :=
  match a with
  | .keep _ => true
  | .discard => true
  | .skip => false

/-! ## Settings and session persistence -/

/-- The persisted settings (settings.json). -/
structure Settings where
  source_folder : String
  target_folder : String
  remember_position : Bool
deriving Repr, DecidableEq

/-- The persisted session (session.json), as written by `save_session`
(app.py:344).  JSON integers may be negative, so the numeric fields are
`Int`. -/
structure SessionData where
  source_folder : String
  target_folder : String
  current_index : Int
  processed_count : Int
  kept_count : Int
  total_files : Int
  image_files : List String
deriving Repr, DecidableEq

/-- `ImageSorterApp.save_session` (app.py:339): the write this call performs
on the session file, `none` when no write happens.  With
`remember_position` unset the function returns before touching the file. -/
def save_session (settings : Settings) (s : TriageState) : Option SessionData :=
  if settings.remember_position = false then none
  else some
    { source_folder := settings.source_folder
      target_folder := settings.target_folder
      current_index := (s.current_index : Int)
      processed_count := (s.processed_count : Int)
      kept_count := (s.kept_count : Int)
      total_files := (s.image_files.length : Int)
      image_files := s.image_files }

/-- `ImageSorterApp.reset_session` (app.py:358): the session file is removed
if it exists. -/
def reset_session (_sessionFile : Option SessionData) : Option SessionData :=
  none

/-- Outcome of the startup resume check: whether `load_session` was invoked
(a read of the session file), whether the resume dialog was offered, whether
sorting was actually resumed, and the session file content afterwards. -/
structure ResumeResult where
  readSession : Bool
  offered : Bool
  resumed : Bool
  sessionFileAfter : Option SessionData
deriving Repr, DecidableEq

/-- `ImageSorterApp.resume_session` (app.py:400): restore the stored fields;
if the restored list is nonempty and the index is in bounds, enter sorting;
otherwise fall back to `reset_session` (clearing the file). -/
def resume_session (d : SessionData) (sessionFile : Option SessionData) :
    Bool × Option SessionData :=
  if d.image_files.isEmpty = false ∧ d.current_index < (d.image_files.length : Int) then
    (true, sessionFile)
  else
    (false, reset_session sessionFile)

/-- `ImageSorterApp.check_for_resume` (app.py:366).  The session file content
(`none` for a missing, unreadable or empty file — `load_session` maps all of
those to an empty dict) and the user's answer to the resume dialog are
passed in explicitly. -/
def check_for_resume (settings : Settings) (sessionFile : Option SessionData)
    (accept : Bool) : ResumeResult :=
  if settings.remember_position = false then
    ⟨false, false, false, sessionFile⟩
  else
    match sessionFile with
    | none => ⟨true, false, false, none⟩
    | some d =>
      if d.total_files = 0 then ⟨true, false, false, some d⟩
      else if d.source_folder = settings.source_folder ∧
              d.target_folder = settings.target_folder ∧
              d.current_index < d.total_files then
        if accept then
          let r := resume_session d (some d)
          ⟨true, true, r.1, r.2⟩
        else ⟨true, true, false, some d⟩
      else ⟨true, false, false, some d⟩

/-- `ImageSorterApp.show_settings` (app.py:424): effect of closing the
settings dialog on the session file.  When the dialog is accepted and
`remember_position` goes from on to off, `reset_session` deletes the file. -/
def show_settings (accepted : Bool) (old nw : Settings)
    (sessionFile : Option SessionData) : Option SessionData :=
  if accepted && old.remember_position && !nw.remember_position then
    reset_session sessionFile
  else sessionFile

/-! ## Async image loader and display guards -/

/-- What the image label shows: either text or a rendered pixmap (the pixmap
itself is opaque to this development and modelled as a `Nat` handle). -/
inductive Display where
  | text (msg : String)
  | pix (handle : Nat)
deriving Repr, DecidableEq

/-- `ImageSorterApp.on_image_loaded` (app.py:510): install the pixmap only
when the reported path is the currently displayed one. -/
def on_image_loaded (current_image_path : Option String) (d : Display)
    (filepath : String) (pixmap : Nat) : Display :=
  if current_image_path = some filepath then Display.pix pixmap else d

/-- `ImageSorterApp.on_image_load_error` (app.py:514): show the error text
only when the reported path is the currently displayed one. -/
def on_image_load_error (current_image_path : Option String) (d : Display)
    (filepath : String) (error_msg : String) : Display :=
  if current_image_path = some filepath then
    Display.text ("Error loading image:\n" ++ error_msg)
  else d

/-- `ImageLoaderThread.run` (app.py:104): the modes the loader converts to
RGB before saving — the fixed tuple `('RGBA', 'LA', 'P')`. -/
def normalize_mode (mode : String) : String :=
  if mode == "RGBA" || mode == "LA" || mode == "P" then "RGB" else mode

/-- Modelled from the PIL library (not part of this repository): the PIL
image modes that carry an alpha band or a palette are `P`, `PA`, `LA`, `La`,
`RGBA` and `RGBa`. -/
def mode_has_alpha_or_palette (mode : String) : Bool :=
  mode == "P" || mode == "PA" || mode == "LA" || mode == "La" ||
    mode == "RGBA" || mode == "RGBa"

/-- `ImageLoaderThread.run` (app.py:108): the temporary file used while
decoding the request for `filepath` — the constant `"temp_image.jpg"`,
independent of the request. -/
def decode_temp_path (filepath : String) : String :=
  "temp_image.jpg"

/-! ## Target writer: collision-avoiding destination name -/

/-- `os.path.splitext` on a bare filename (Python semantics): split at the
last dot, except that a name consisting only of leading dots up to that
point has no extension. -/
def splitext (s : String) : String × String :=
  let cs := s.data
  match (cs.reverse.findIdx? (· = '.')).map (fun j => cs.length - 1 - j) with
  | none => (s, "")
  | some i =>
    if (cs.take i).all (· = '.') then (s, "")
    else (⟨cs.take i⟩, ⟨cs.drop i⟩)

/-- The candidate name `f"{name}_{counter}{ext}"` (app.py:570). -/
def name_with_counter (name ext : String) (counter : Nat) : String :=
  name ++ "_" ++ toString counter ++ ext

/-- The `while os.path.exists(target_file)` loop of `copy_image_to_target`
(app.py:569): as long as the current candidate exists in the target folder,
move to `name_counter ext` and bump the counter.  `present` is the
filesystem's answer to `os.path.exists` in the target folder; `fuel` bounds
the unbounded Python loop (the folder holds finitely many names, so the
loop terminates; any sufficiently large fuel gives the loop's value). -/
def collision_loop (present : String → Bool) (name ext : String)
    (target : String) (counter fuel : Nat) : String :=
  match fuel with
  | 0 => target
  | f + 1 =>
    if present target then
      collision_loop present name ext (name_with_counter name ext counter)
        (counter + 1) f
    else target

/-- `ImageSorterApp.copy_image_to_target` (app.py:556), reduced to the
destination-name computation inside the fixed target folder: start with the
source's basename; if it exists, split off the extension and run the
collision loop with the counter starting at 1. -/
def copy_target_name (present : String → Bool) (filename : String)
    (fuel : Nat) : String :=
  if present filename then
    collision_loop present (splitext filename).1 (splitext filename).2
      filename 1 fuel
  else filename

/-! ## File enumerator -/

mutual

/-- A directory tree: the files directly in a directory plus its named
subdirectories (mutual with `DirForest` to keep recursion structural). -/
inductive DirTree where
  | node (files : List String) (subdirs : DirForest)

/-- A list of named subdirectories. -/
inductive DirForest where
  | nil
  | cons (dirname : String) (tree : DirTree) (rest : DirForest)

end

/-- `os.path.join` with the POSIX separator. -/
def path_join (root name : String) : String := root ++ "/" ++ name

mutual

/-- Modelled from the Python standard library: `os.walk(root)` yields, in
top-down order, one `(dirpath, filenames)` pair per directory of the tree. -/
def os_walk (root : String) : DirTree → List (String × List String)
  | .node files subs => (root, files) :: os_walk_forest root subs

/-- `os_walk` over a forest of subdirectories. -/
def os_walk_forest (root : String) : DirForest → List (String × List String)
  | .nil => []
  | .cons d t rest => os_walk (path_join root d) t ++ os_walk_forest root rest

end

/-- The allow-list `ImageSorterApp.supported_formats` (app.py:168). -/
def supported_formats : List String :=
  [".jpg", ".jpeg", ".png", ".gif", ".bmp", ".tiff", ".webp"]

/-- The filter `file.lower().endswith(self.supported_formats)` (app.py:487):
Python's `str.endswith` on a tuple is true when any member is a suffix;
lowercasing and the suffix test are carried out on the character list. -/
def is_supported_image (filename : String) : Bool :=
  supported_formats.any
    (fun ext => ext.data.isSuffixOf (filename.data.map Char.toLower))

/-- `ImageSorterApp.find_image_files` (app.py:481): walk the source folder
and collect `os.path.join(root, file)` for every file passing the extension
filter, in walk order. -/
def find_image_files (source_folder : String) (t : DirTree) : List String :=
  ((os_walk source_folder t).map
    (fun rf => (rf.2.filter is_supported_image).map (path_join rf.1))).flatten

/-- All `(dirpath, filename)` pairs of the tree, in walk order (the claim
measures the enumerator against this universe of files). -/
def walk_entries (source_folder : String) (t : DirTree) :
    List (String × String) :=
  ((os_walk source_folder t).map
    (fun rf => rf.2.map (fun f => (rf.1, f)))).flatten

/-! ## Theorems -/

/-! ### Helper lemmas about the triage state machine -/

@[simp] lemma load_image_files (s : TriageState) :
    (load_current_image s).image_files = s.image_files := by
  unfold load_current_image sorting_complete; split <;> rfl

@[simp] lemma load_current_index (s : TriageState) :
    (load_current_image s).current_index = s.current_index := by
  unfold load_current_image sorting_complete; split <;> rfl

@[simp] lemma load_processed (s : TriageState) :
    (load_current_image s).processed_count = s.processed_count := by
  unfold load_current_image sorting_complete; split <;> rfl

@[simp] lemma load_kept (s : TriageState) :
    (load_current_image s).kept_count = s.kept_count := by
  unfold load_current_image sorting_complete; split <;> rfl

lemma load_buttons (s : TriageState) :
    (load_current_image s).buttons_enabled =
      if s.current_index ≥ s.image_files.length then false
      else s.buttons_enabled := by
  unfold load_current_image sorting_complete
  split <;> simp_all

lemma step_fields (a : Action) (s : TriageState)
    (hen : s.buttons_enabled = true) :
    (step a s).image_files = s.image_files ∧
    (step a s).current_index = s.current_index + 1 ∧
    (step a s).processed_count =
      s.processed_count + (if countsAsProcessed a then 1 else 0) ∧
    (step a s).kept_count ≤
      s.kept_count + (if countsAsProcessed a then 1 else 0) ∧
    (step a s).buttons_enabled =
      (if s.current_index + 1 ≥ s.image_files.length then false else true) := by
  cases a with
  | keep copyOk =>
    cases hcip : s.current_image_path with
    | some p =>
      have e : step (Action.keep copyOk) s = load_current_image
          { s with kept_count := s.kept_count + 1,
                   processed_count := s.processed_count + 1,
                   current_index := s.current_index + 1 } := by
        simp [step, thumbs_up, thumbs_up_full, hen, hcip, next_image]
      rw [e]
      simp [load_buttons, countsAsProcessed, hen]
    | none =>
      have e : step (Action.keep copyOk) s = load_current_image
          { s with processed_count := s.processed_count + 1,
                   current_index := s.current_index + 1 } := by
        simp [step, thumbs_up, thumbs_up_full, hen, hcip, next_image]
      rw [e]
      simp [load_buttons, countsAsProcessed, Nat.le_succ, hen]
  | discard =>
    have e : step Action.discard s = load_current_image
        { s with processed_count := s.processed_count + 1,
                 current_index := s.current_index + 1 } := by
      simp [step, thumbs_down, hen, next_image]
    rw [e]
    simp [load_buttons, countsAsProcessed, Nat.le_succ, hen]
  | skip =>
    have e : step Action.skip s = load_current_image
        { s with current_index := s.current_index + 1 } := by
      simp [step, skip_image, hen]
    rw [e]
    simp [load_buttons, countsAsProcessed, hen]

lemma run_spec (acts : List Action) : ∀ s : TriageState,
    s.buttons_enabled = true →
    s.current_index + acts.length ≤ s.image_files.length →
    (run acts s).image_files = s.image_files ∧
    (run acts s).current_index = s.current_index + acts.length ∧
    (run acts s).processed_count =
      s.processed_count + acts.countP countsAsProcessed ∧
    (run acts s).kept_count ≤ s.kept_count + acts.countP countsAsProcessed := by
  induction acts with
  | nil => intro s _ _; simp [run]
  | cons a rest ih =>
    intro s hen hlen
    obtain ⟨hf, hi, hp, hk, hb⟩ := step_fields a s hen
    have hrun : run (a :: rest) s = run rest (step a s) := rfl
    rcases rest with _ | ⟨b, rest'⟩
    · rw [hrun]
      simp only [run]
      refine ⟨hf, ?_, ?_, ?_⟩
      · simpa using hi
      · cases hpa : countsAsProcessed a <;>
          simp [hpa, List.countP_cons] at hp ⊢ <;> omega
      · cases hpa : countsAsProcessed a <;>
          simp [hpa, List.countP_cons] at hk ⊢ <;> omega
    · have hen' : (step a s).buttons_enabled = true := by
        rw [hb, if_neg]
        intro hge
        simp [List.length_cons] at hlen
        omega
      have hlen' : (step a s).current_index + (b :: rest').length ≤
          (step a s).image_files.length := by
        rw [hi, hf]
        simp [List.length_cons] at hlen ⊢
        omega
      obtain ⟨rf, ri, rp, rk⟩ := ih (step a s) hen' hlen'
      rw [hrun]
      refine ⟨by rw [rf, hf], ?_, ?_, ?_⟩
      · rw [ri, hi]; simp [List.length_cons]; omega
      · rw [rp, hp]
        cases hpa : countsAsProcessed a <;>
          simp [hpa, List.countP_cons] <;> omega
      · refine le_trans rk ?_
        cases hpa : countsAsProcessed a <;>
          simp [hpa, List.countP_cons] at hk ⊢ <;> omega

/-- C2: for every sequence of classification actions taken from the start of
a sort (every action lands while sorting is still in progress),
`processed_count` equals the number of Keep and Discard actions, and
`kept_count ≤ processed_count` holds in the resulting state (every prefix of
such a sequence is itself such a sequence, so the invariant holds after
every action). -/
theorem claim_C2_counter_invariants (files : List String) (s₀ : TriageState)
    (acts : List Action) (hstart : start_sorting files = some s₀)
    (hlen : acts.length ≤ files.length) :
    (run acts s₀).processed_count = acts.countP countsAsProcessed ∧
    (run acts s₀).kept_count ≤ (run acts s₀).processed_count := by
  unfold start_sorting at hstart
  split at hstart
  · exact absurd hstart (by simp)
  · rename_i hne
    have hs₀ : s₀ = load_current_image
        { image_files := files, current_index := 0, processed_count := 0,
          kept_count := 0, current_image_path := none,
          buttons_enabled := true } := (Option.some.inj hstart).symm
    have hpos : 0 < files.length := by
      cases files with
      | nil => simp at hne
      | cons x xs => simp
    have hen : s₀.buttons_enabled = true := by
      rw [hs₀, load_buttons]
      show (if (0 : Nat) ≥ files.length then false else true) = true
      rw [if_neg (by omega)]
    have hidx : s₀.current_index = 0 := by rw [hs₀]; simp
    have hfiles : s₀.image_files = files := by rw [hs₀]; simp
    have hproc : s₀.processed_count = 0 := by rw [hs₀]; simp
    have hkept : s₀.kept_count = 0 := by rw [hs₀]; simp
    obtain ⟨_, _, rp, rk⟩ := run_spec acts s₀ hen
      (by rw [hidx, hfiles]; simpa using hlen)
    exact ⟨by omega, by omega⟩

/-- C2 (witness): the spec's own scenario — three images, actions Keep,
Skip, Discard — ends with `processed_count = 2` and the invariant holding. -/
theorem claim_C2_counter_invariants_witness :
    (run [Action.keep true, Action.skip, Action.discard]
        ⟨["a.jpg", "b.png", "c.bmp"], 0, 0, 0, some "a.jpg", true⟩).processed_count =
      [Action.keep true, Action.skip, Action.discard].countP countsAsProcessed ∧
    (run [Action.keep true, Action.skip, Action.discard]
        ⟨["a.jpg", "b.png", "c.bmp"], 0, 0, 0, some "a.jpg", true⟩).kept_count ≤
    (run [Action.keep true, Action.skip, Action.discard]
        ⟨["a.jpg", "b.png", "c.bmp"], 0, 0, 0, some "a.jpg", true⟩).processed_count :=
  claim_C2_counter_invariants ["a.jpg", "b.png", "c.bmp"]
    ⟨["a.jpg", "b.png", "c.bmp"], 0, 0, 0, some "a.jpg", true⟩
    [Action.keep true, Action.skip, Action.discard] (by decide) (by decide)

/-- C1 (counterexample): in the Sorting state on `a.jpg`, a Keep whose copy
fails (`copyOk = false`) still attempts the copy and still increments
`kept_count` from 0 to 1 — the claim's "kept_count is incremented only if
that copy succeeds" is false of the code, which swallows the copy error
inside `copy_image_to_target`. -/
theorem claim_C1_counterexample :
    (thumbs_up_full false ⟨["a.jpg"], 0, 0, 0, some "a.jpg", true⟩).2 = true ∧
    (thumbs_up false ⟨["a.jpg"], 0, 0, 0, some "a.jpg", true⟩).kept_count = 1 := by
  decide

/-- C1 (amended): for every Keep taken in the Sorting state (buttons enabled
and a current image set), the copy is attempted, and — whether the copy
succeeds or fails — `kept_count` and `processed_count` are incremented and
the index advances by 1. -/
theorem claim_C1_keep_always_counts (s : TriageState) (copyOk : Bool)
    (p : String) (hen : s.buttons_enabled = true)
    (hp : s.current_image_path = some p) :
    (thumbs_up_full copyOk s).2 = true ∧
    (thumbs_up copyOk s).kept_count = s.kept_count + 1 ∧
    (thumbs_up copyOk s).processed_count = s.processed_count + 1 ∧
    (thumbs_up copyOk s).current_index = s.current_index + 1 := by
  have h4 : thumbs_up_full copyOk s =
      (next_image { s with kept_count := s.kept_count + 1 }, true) := by
    simp [thumbs_up_full, hen, hp]
  refine ⟨by rw [h4], ?_, ?_, ?_⟩ <;>
    · rw [thumbs_up, h4]
      simp only [next_image, load_current_image, sorting_complete]
      split <;> simp

/-- C1 (witness): the amended statement at a concrete Sorting state. -/
theorem claim_C1_keep_always_counts_witness :
    (thumbs_up_full true ⟨["a.jpg"], 0, 0, 0, some "a.jpg", true⟩).2 = true ∧
    (thumbs_up true ⟨["a.jpg"], 0, 0, 0, some "a.jpg", true⟩).kept_count = 1 ∧
    (thumbs_up true ⟨["a.jpg"], 0, 0, 0, some "a.jpg", true⟩).processed_count = 1 ∧
    (thumbs_up true ⟨["a.jpg"], 0, 0, 0, some "a.jpg", true⟩).current_index = 1 :=
  claim_C1_keep_always_counts ⟨["a.jpg"], 0, 0, 0, some "a.jpg", true⟩ true
    "a.jpg" rfl rfl

/-- C3 (counterexample): two concrete startup states refute the claim.  With
a stored `source_folder` (`"c"`) differing from the current one (`"a"`),
resume is indeed not offered, but the session file is left in place rather
than cleared; and a stored `current_index = -1` (violating `0 ≤
current_index`) is still offered for resume because the code checks only
`current_index < total_files`. -/
theorem claim_C3_counterexample :
    (check_for_resume ⟨"a", "b", true⟩ (some ⟨"c", "b", 0, 0, 0, 1, ["x"]⟩)
      false).offered = false ∧
    (check_for_resume ⟨"a", "b", true⟩ (some ⟨"c", "b", 0, 0, 0, 1, ["x"]⟩)
      false).sessionFileAfter = some ⟨"c", "b", 0, 0, 0, 1, ["x"]⟩ ∧
    (check_for_resume ⟨"a", "b", true⟩
      (some ⟨"a", "b", -1, 0, 0, 3, ["x", "y", "z"]⟩) false).offered = true := by
  decide

/-- C3 (amended): with `remember_position` enabled, resume is offered iff
the session parses (`some`), its `total_files` is nonzero, its folders match
the current settings, and `current_index < total_files` — the lower bound
`0 ≤ current_index` is not checked.  When the offer is not made the session
file is left untouched; when it is made, the file is cleared only if the
user accepts and the restored state is invalid (empty list or index out of
bounds of the stored `image_files`). -/
theorem claim_C3_resume_guard (settings : Settings) (sd : Option SessionData)
    (accept : Bool) (hrem : settings.remember_position = true) :
    ((check_for_resume settings sd accept).offered = true ↔
      ∃ d, sd = some d ∧ d.total_files ≠ 0 ∧
        d.source_folder = settings.source_folder ∧
        d.target_folder = settings.target_folder ∧
        d.current_index < d.total_files) ∧
    ((check_for_resume settings sd accept).offered = false →
      (check_for_resume settings sd accept).sessionFileAfter = sd) ∧
    (∀ d, sd = some d → (check_for_resume settings sd accept).offered = true →
      (check_for_resume settings sd accept).sessionFileAfter =
        if accept = true then
          (if d.image_files.isEmpty = false ∧
              d.current_index < (d.image_files.length : Int)
           then some d else none)
        else some d) := by
  unfold check_for_resume resume_session reset_session
  simp only [hrem]
  rcases sd with _ | d
  · simp
  · by_cases h0 : d.total_files = 0
    · simp [h0]
    · by_cases hm : d.source_folder = settings.source_folder ∧
          d.target_folder = settings.target_folder ∧
          d.current_index < d.total_files
      · by_cases hv : d.image_files.isEmpty = false ∧
            d.current_index < (d.image_files.length : Int)
        · have hv' : ¬ d.image_files = [] := by
            have := hv.1
            simpa using this
          cases accept <;> simp [h0, hm.1, hm.2.1, hm.2.2, hv', hv.2]
        · have hv' : ¬ (¬ d.image_files = [] ∧
              d.current_index < (d.image_files.length : Int)) := by
            simpa using hv
          cases accept <;> simp [h0, hm.1, hm.2.1, hm.2.2, hv']
      · simp [h0, hm]

/-- C3 (witness): a matching in-bounds session is offered, and accepting it
with a valid stored list keeps the session file. -/
theorem claim_C3_resume_guard_witness :
    ((check_for_resume ⟨"a", "b", true⟩ (some ⟨"a", "b", 0, 0, 0, 1, ["x"]⟩)
        true).offered = true ↔
      ∃ d, (some ⟨"a", "b", 0, 0, 0, 1, ["x"]⟩ : Option SessionData) = some d ∧
        d.total_files ≠ 0 ∧ d.source_folder = "a" ∧ d.target_folder = "b" ∧
        d.current_index < d.total_files) ∧
    ((check_for_resume ⟨"a", "b", true⟩ (some ⟨"a", "b", 0, 0, 0, 1, ["x"]⟩)
        true).offered = false →
      (check_for_resume ⟨"a", "b", true⟩ (some ⟨"a", "b", 0, 0, 0, 1, ["x"]⟩)
        true).sessionFileAfter = some ⟨"a", "b", 0, 0, 0, 1, ["x"]⟩) ∧
    (∀ d, (some ⟨"a", "b", 0, 0, 0, 1, ["x"]⟩ : Option SessionData) = some d →
      (check_for_resume ⟨"a", "b", true⟩ (some ⟨"a", "b", 0, 0, 0, 1, ["x"]⟩)
        true).offered = true →
      (check_for_resume ⟨"a", "b", true⟩ (some ⟨"a", "b", 0, 0, 0, 1, ["x"]⟩)
        true).sessionFileAfter =
        if true = true then
          (if d.image_files.isEmpty = false ∧
              d.current_index < (d.image_files.length : Int)
           then some d else none)
        else some d) :=
  claim_C3_resume_guard ⟨"a", "b", true⟩ (some ⟨"a", "b", 0, 0, 0, 1, ["x"]⟩)
    true rfl

/-- C4: with `remember_position` disabled, `save_session` performs no write
and the startup resume check performs no read of the session file, whatever
the rest of the state is. -/
theorem claim_C4_no_session_io (settings : Settings) (s : TriageState)
    (sessionFile : Option SessionData) (accept : Bool)
    (h : settings.remember_position = false) :
    save_session settings s = none ∧
    (check_for_resume settings sessionFile accept).readSession = false := by
  constructor <;> simp [save_session, check_for_resume, h]

/-- C4 (witness): the frame property at a concrete state. -/
theorem claim_C4_no_session_io_witness :
    save_session ⟨"src", "tgt", false⟩ ⟨["a.jpg"], 0, 0, 0, none, false⟩ = none ∧
    (check_for_resume ⟨"src", "tgt", false⟩
      (some ⟨"src", "tgt", 0, 0, 0, 1, ["a.jpg"]⟩) true).readSession = false :=
  claim_C4_no_session_io ⟨"src", "tgt", false⟩ ⟨["a.jpg"], 0, 0, 0, none, false⟩
    (some ⟨"src", "tgt", 0, 0, 0, 1, ["a.jpg"]⟩) true rfl

/-- C5: an asynchronous decode completion — success or error — tagged with a
path different from the currently displayed one leaves the display
unchanged. -/
theorem claim_C5_stale_result_ignored (current : Option String) (d : Display)
    (filepath : String) (pixmap : Nat) (error_msg : String)
    (h : current ≠ some filepath) :
    on_image_loaded current d filepath pixmap = d ∧
    on_image_load_error current d filepath error_msg = d := by
  constructor <;> simp [on_image_loaded, on_image_load_error, h]

/-- C5 (witness): a stale completion for `b.jpg` while `a.jpg` is current. -/
theorem claim_C5_stale_result_ignored_witness :
    on_image_loaded (some "a.jpg") (Display.text "x") "b.jpg" 7 =
      Display.text "x" ∧
    on_image_load_error (some "a.jpg") (Display.text "x") "b.jpg" "oops" =
      Display.text "x" :=
  claim_C5_stale_result_ignored (some "a.jpg") (Display.text "x") "b.jpg" 7
    "oops" (by decide)

/-! ### Helper lemmas for target writer and enumerator -/

lemma collision_loop_finds (present : String → Bool) (name ext : String)
    (k : Nat) (hk : present (name_with_counter name ext k) = false)
    (hall : ∀ j, 1 ≤ j → j < k → present (name_with_counter name ext j) = true) :
    ∀ fuel counter target, present target = true → 1 ≤ counter → counter ≤ k →
      k + 1 - counter ≤ fuel →
      collision_loop present name ext target counter fuel =
        name_with_counter name ext k := by
  intro fuel
  induction fuel with
  | zero => intro counter target _ _ hck hfu; omega
  | succ f ih =>
    intro counter target hp h1 hck hfu
    simp only [collision_loop, hp, if_true]
    by_cases hek : counter = k
    · subst hek
      cases f with
      | zero => simp [collision_loop]
      | succ f' => simp [collision_loop, hk]
    · have hlt : counter < k := lt_of_le_of_ne hck hek
      exact ih (counter + 1) _ (hall counter h1 hlt) (by omega) (by omega)
        (by omega)

lemma filter_map_pair (r : String) (fs : List String) :
    (fs.filter is_supported_image).map (path_join r) =
      ((fs.map (fun f => (r, f))).filter
        (fun e => is_supported_image e.2)).map (fun e => path_join e.1 e.2) := by
  induction fs with
  | nil => rfl
  | cons f fs ih =>
    simp only [List.map_cons, List.filter_cons]
    by_cases h : is_supported_image f <;> simp [h, ih]

lemma flatten_filter_walk (L : List (String × List String)) :
    (L.map (fun rf => (rf.2.filter is_supported_image).map
      (path_join rf.1))).flatten =
    (((L.map (fun rf => rf.2.map (fun f => (rf.1, f)))).flatten).filter
      (fun e => is_supported_image e.2)).map (fun e => path_join e.1 e.2) := by
  induction L with
  | nil => rfl
  | cons rf rest ih =>
    simp only [List.map_cons, List.flatten_cons, List.filter_append,
      List.map_append]
    rw [ih, filter_map_pair]

/-- C6: the target writer's collision policy.  For any target-folder content
`present` with `photo.jpg` present, if `k ≥ 1` is the first counter whose
candidate `photo_k.jpg` is unused (all smaller counters from 1 are used),
the destination chosen is exactly that candidate — and in particular a
second copy of `photo.jpg` into a folder holding `photo.jpg` goes to
`photo_1.jpg`, and a third (with `photo_1.jpg` also present) goes to
`photo_2.jpg`. -/
theorem claim_C6_collision_names (present : String → Bool) (k fuel : Nat)
    (h0 : present "photo.jpg" = true) (h1 : 1 ≤ k)
    (hall : ∀ j, 1 ≤ j → j < k →
      present (name_with_counter "photo" ".jpg" j) = true)
    (hk : present (name_with_counter "photo" ".jpg" k) = false)
    (hfuel : k ≤ fuel) :
    copy_target_name present "photo.jpg" fuel =
      name_with_counter "photo" ".jpg" k ∧
    copy_target_name (fun s => s == "photo.jpg") "photo.jpg" 4 =
      "photo_1.jpg" ∧
    copy_target_name (fun s => s == "photo.jpg" || s == "photo_1.jpg")
      "photo.jpg" 4 = "photo_2.jpg" := by
  refine ⟨?_, by decide, by decide⟩
  have hsplit : splitext "photo.jpg" = ("photo", ".jpg") := by decide
  unfold copy_target_name
  rw [if_pos h0, hsplit]
  exact collision_loop_finds present "photo" ".jpg" k hk hall fuel 1
    "photo.jpg" h0 (le_refl 1) h1 (by omega)

/-- C6 (witness): the first collision, concretely. -/
theorem claim_C6_collision_names_witness :
    copy_target_name (fun s => s == "photo.jpg") "photo.jpg" 4 =
      name_with_counter "photo" ".jpg" 1 ∧
    copy_target_name (fun s => s == "photo.jpg") "photo.jpg" 4 =
      "photo_1.jpg" ∧
    copy_target_name (fun s => s == "photo.jpg" || s == "photo_1.jpg")
      "photo.jpg" 4 = "photo_2.jpg" :=
  claim_C6_collision_names (fun s => s == "photo.jpg") 1 4 (by decide)
    (le_refl 1) (fun j hj hj' => absurd hj' (by omega)) (by decide)
    (by decide)

/-- C7: the file enumerator returns exactly the matching files of the tree:
its output is the walk-ordered list of joined paths of precisely those
`(directory, filename)` entries whose name passes the lowercased-extension
allow-list, and its length is the number of matching files — non-matching
files contribute nothing, and every directory of the tree is visited through
`os_walk`. -/
theorem claim_C7_enumerator_exact (source_folder : String) (t : DirTree) :
    find_image_files source_folder t =
      ((walk_entries source_folder t).filter
        (fun e => is_supported_image e.2)).map (fun e => path_join e.1 e.2) ∧
    (find_image_files source_folder t).length =
      (walk_entries source_folder t).countP
        (fun e => is_supported_image e.2) ∧
    is_supported_image "PHOTO.JPG" = true ∧
    is_supported_image "photo.txt" = false := by
  have key := flatten_filter_walk (os_walk source_folder t)
  refine ⟨key, ?_, by decide, by decide⟩
  rw [find_image_files, key, walk_entries, List.length_map,
    ← List.countP_eq_length_filter]

/-- C8 (counterexample): the PIL mode `PA` (palette with alpha) has an alpha
and palette channel, yet the loader's fixed tuple check leaves it
unconverted — the claim's "any such mode, not just a fixed subset" is false
of the code. -/
theorem claim_C8_counterexample :
    mode_has_alpha_or_palette "PA" = true ∧ normalize_mode "PA" = "PA" ∧
    ("PA" : String) ≠ "RGB" := by
  decide

/-- C8 (amended): among the alpha- or palette-bearing modes, exactly the
fixed subset `RGBA`, `LA`, `P` is converted to RGB; the others (`PA`,
`RGBa`, `La`) are left unchanged. -/
theorem claim_C8_fixed_subset_converted (mode : String)
    (h : mode_has_alpha_or_palette mode = true) :
    normalize_mode mode = "RGB" ↔
      (mode = "RGBA" ∨ mode = "LA" ∨ mode = "P") := by
  simp only [mode_has_alpha_or_palette, Bool.or_eq_true, beq_iff_eq] at h
  rcases h with ((((h | h) | h) | h) | h) | h <;> subst h <;> decide

/-- C8 (witness): the amended statement at mode `RGBA`. -/
theorem claim_C8_fixed_subset_converted_witness :
    mode_has_alpha_or_palette "RGBA" = true ∧
    (normalize_mode "RGBA" = "RGB" ↔
      (("RGBA" : String) = "RGBA" ∨ ("RGBA" : String) = "LA" ∨
        ("RGBA" : String) = "P")) :=
  ⟨by decide, claim_C8_fixed_subset_converted "RGBA" (by decide)⟩

/-- C9: the temporary file used while decoding is the constant
`temp_image.jpg` for every request, so two distinct requests (here `a.jpg`
and `b.jpg`) share the same temporary name — the claimed per-request
uniqueness does not hold of the code. -/
theorem claim_C9_shared_temp_name :
    decode_temp_path "a.jpg" = "temp_image.jpg" ∧
    decode_temp_path "b.jpg" = "temp_image.jpg" ∧
    ("a.jpg" : String) ≠ "b.jpg" := by
  refine ⟨rfl, rfl, by decide⟩

/-- C10: accepting the settings dialog with `remember_position` previously
on and now off deletes the persisted session file, whatever progress it
held. -/
theorem claim_C10_toggle_off_clears_session (old nw : Settings)
    (sessionFile : Option SessionData)
    (h1 : old.remember_position = true) (h2 : nw.remember_position = false) :
    show_settings true old nw sessionFile = none := by
  simp [show_settings, reset_session, h1, h2]

/-- C10 (witness): toggling off at a concrete saved session. -/
theorem claim_C10_toggle_off_clears_session_witness :
    show_settings true ⟨"s", "t", true⟩ ⟨"s", "t", false⟩
      (some ⟨"s", "t", 2, 2, 1, 3, ["a", "b", "c"]⟩) = none :=
  claim_C10_toggle_off_clears_session ⟨"s", "t", true⟩ ⟨"s", "t", false⟩
    (some ⟨"s", "t", 2, 2, 1, 3, ["a", "b", "c"]⟩) rfl rfl

end ImageSorter
